import Mathlib

/-
  Verification development for the napalm-panos PAN-OS driver
  (src/napalm_panos/panos.py).

  The transaction core of the driver is embedded shallowly:

  * `DriverState` carries the mutable attributes of `PANOSDriver` that the
    configuration-lifecycle operations read or write (`loaded`, `changed`,
    `merge_config`, `ssh_connection`, the session-locking configuration, the
    `locked` flag of the session's `PANOSLock` object, and `backup_file`).
  * Device-visible actions (XML API calls, the multipart file upload, shell
    channel traffic) are recorded in an explicit trace of `Cmd` values; the
    exact XML strings the source builds are recovered by `Cmd.render`.
  * Outcomes of the external world (whether a device call raises, the
    `device.status` string after a call, file contents, the current date)
    are supplied through explicit environment records, one per operation.
  * Python exceptions become the `Err` type; an operation returns
    `Except Err α × DriverState × List Cmd` (result, post-state, trace).

  Python's `time.sleep` calls and log statements are not modelled: they have
  no effect on state, results, or device commands.
-/

deriving instance DecidableEq for Except

/-- Python exceptions that the transaction core can raise.
`lockError` / `unlockError` are `napalm.base.exceptions.LockError` /
`UnlockError` (the spec calls them `LockAcquisitionError` /
`LockReleaseError`); `panXapiError` stands for an uncaught
`pan.xapi.PanXapiError`; `attributeError` models Python `AttributeError`;
`netmikoError` stands for an exception out of the netmiko shell channel. -/
inductive Err where
  | replaceConfigException (msg : String)
  | mergeConfigException (msg : String)
  | lockError (msg : String)
  | unlockError (msg : String)
  | connectionException (msg : String)
  | panXapiError (msg : String)
  | httpError (msg : String)
  | attributeError (msg : String)
  | netmikoError (msg : String)
  | notImplementedError (msg : String)
  deriving Repr, DecidableEq

/-- One device-visible action of the driver.  XML-channel commands are kept
structurally (which template, with which arguments); `Cmd.render` rebuilds
the exact strings of the source.  Shell-channel actions mirror the netmiko
calls made by the source (`ConnectHandler`, `send_config_set`, `commit`,
`exit_config_mode`, `send_command`). -/
inductive Cmd where
  | xmlTakeLock (lockType : String) (comment : String)
  | xmlReleaseLock (lockType : String)
  | xmlSave (file : String)
  | xmlLoad (file : String)
  | xmlShowCandidate
  | xmlShowRunning
  | upload (path : String)
  | sshOpen
  | sshConfigSet (lines : List String)
  | sshCommit (comment : String)
  | sshExitConfigMode
  | sshSend (c : String)
  deriving Repr, DecidableEq

/-- The XML command string (or description of the API call) each `Cmd`
stands for, exactly as the source formats it
(`TAKE_LOCK_API_CMD`, `RELEASE_LOCK_API_CMD`, and the command templates in
`load_replace_candidate`, `_save_backup`, `discard_config`, `rollback`,
`_get_candidate`). -/
def Cmd.render : Cmd → String
  | .xmlTakeLock t c =>
      "<request><" ++ t ++ "-lock><add><comment>" ++ c ++ "</comment></add></"
        ++ t ++ "-lock></request>"
  | .xmlReleaseLock t =>
      "<request><" ++ t ++ "-lock><remove></remove></" ++ t ++ "-lock></request>"
  | .xmlSave f => "<save><config><to>" ++ f ++ "</to></config></save>"
  | .xmlLoad f => "<load><config><from>" ++ f ++ "</from></config></load>"
  | .xmlShowCandidate => "<show><config><candidate></candidate></config></show>"
  | .xmlShowRunning => "device.show()"
  | .upload p => "POST /api/ type=import category=configuration file=" ++ p
  | .sshOpen => "ConnectHandler(device_type=paloalto_panos)"
  | .sshConfigSet _ => "send_config_set"
  | .sshCommit c => "commit comment=" ++ c
  | .sshExitConfigMode => "exit_config_mode"
  | .sshSend c => c

/-- The mutable attributes of `PANOSDriver` (plus the `locked` flag of its
`PANOSLock`) that the transaction operations depend on.  `backup_file` is
`none` until `_save_backup` first assigns it; `lock_comment` is the
session's `config_lock_comment` optional argument. -/
structure DriverState where
  loaded : Bool
  changed : Bool
  merge_config : Bool
  ssh_connection : Bool
  session_config_lock : Bool
  locked : Bool
  backup_file : Option String
  lock_comment : String
  deriving Repr, DecidableEq

/-- Model of `PANOSDriver.__init__`: all transaction flags start false, no ssh
connection, no backup file, no lock held. -/
def PANOSDriver.init (session_config_lock : Bool) (lock_comment : String) :
    DriverState :=
  { loaded := false
    changed := false
    merge_config := false
    ssh_connection := false
    session_config_lock := session_config_lock
    locked := false
    backup_file := none
    lock_comment := lock_comment }

/-- Model of `PANOSLock.LOCK_TYPES`: the fixed order in which the two device locks
are taken and released. -/
def LOCK_TYPES : List String := ["config", "commit"]

/-- Outcome of the `device.op` calls made while taking or releasing locks:
for each lock type, whether the call raises `PanXapiError`, and the message
of that error. -/
structure LockEnv where
  opRaises : String → Bool
  errMsg : String → String

/-- The body of the `for lock_type in self.LOCK_TYPES` loop of
`PANOSLock.lock`: issue the take-lock command for each lock type in order,
aborting with `LockError` at the first `PanXapiError`. -/
def PANOSLock.lockLoop (comment : String) (env : LockEnv) :
    List String → Except Err Unit × List Cmd
  | [] => (.ok (), [])
  | lockType :: rest =>
      if env.opRaises lockType then
        (.error (.lockError ("Failed to aquire " ++ lockType ++ "-lock: "
            ++ env.errMsg lockType)),
         [.xmlTakeLock lockType comment])
      else
        match PANOSLock.lockLoop comment env rest with
        | (r, trace) => (r, .xmlTakeLock lockType comment :: trace)

/-- Model of `PANOSLock.lock`: no-op when `locked` is already true; otherwise take
the `config` lock then the `commit` lock, setting `locked := true` only
after both succeed.  Returns (result, new `locked` flag, device trace). -/
def PANOSLock.lock (locked : Bool) (comment : String) (env : LockEnv) :
    Except Err Unit × Bool × List Cmd :=
  if locked then (.ok (), locked, [])
  else
    match PANOSLock.lockLoop comment env LOCK_TYPES with
    | (.ok _, trace) => (.ok (), true, trace)
    | (.error e, trace) => (.error e, false, trace)

/-- The body of the release loop of `PANOSLock.unlock`: issue the
release-lock command for each lock type in order, aborting with
`UnlockError` at the first `PanXapiError`. -/
def PANOSLock.unlockLoop (env : LockEnv) :
    List String → Except Err Unit × List Cmd
  | [] => (.ok (), [])
  | lockType :: rest =>
      if env.opRaises lockType then
        (.error (.unlockError ("Failed to release " ++ lockType ++ "-lock: "
            ++ env.errMsg lockType)),
         [.xmlReleaseLock lockType])
      else
        match PANOSLock.unlockLoop env rest with
        | (r, trace) => (r, .xmlReleaseLock lockType :: trace)

/-- Model of `PANOSLock.unlock`: no-op when `locked` is false; otherwise release the
`config` lock then the `commit` lock, setting `locked := false` only after
both succeed. -/
def PANOSLock.unlock (locked : Bool) (env : LockEnv) :
    Except Err Unit × Bool × List Cmd :=
  if locked = false then (.ok (), locked, [])
  else
    match PANOSLock.unlockLoop env LOCK_TYPES with
    | (.ok _, trace) => (.ok (), false, trace)
    | (.error e, trace) => (.error e, true, trace)

/-- Model of `PANOSDriver.open`: create the XML API session and, when session-level
config locking is enabled, create the `PANOSLock` object and take both
locks.  (Session creation itself is not modelled beyond success; the
claims under verification concern the locking part.)  Source name: `open`. -/
def PANOSDriver.openSession (s : DriverState) (env : LockEnv) :
    Except Err Unit × DriverState × List Cmd :=
  if s.session_config_lock then
    match PANOSLock.lock s.locked s.lock_comment env with
    | (r, newLocked, trace) => (r, { s with locked := newLocked }, trace)
  else
    (.ok (), s, [])

/-- Outcome of a `PANOSDriver._open_ssh` attempt
(`netmiko.ConnectHandler`): whether it raises `ConnectionException`. -/
structure OpenSshEnv where
  raises : Bool
  errMsg : String

/-- Model of `PANOSDriver._open_ssh`: open the interactive shell channel; on success
set `ssh_connection := true`. -/
def PANOSDriver.open_ssh (s : DriverState) (env : OpenSshEnv) :
    Except Err Unit × DriverState × List Cmd :=
  if env.raises then
    (.error (.connectionException env.errMsg), s, [.sshOpen])
  else
    (.ok (), { s with ssh_connection := true }, [.sshOpen])

/-- Model of `PANOSDriver.close`: when session locking is enabled release both locks
(an `UnlockError` propagates and aborts the rest), then drop the ssh
channel.  The `_lock_object is not None` guard holds whenever `open`
ran with locking enabled, which is the modelled situation. -/
def PANOSDriver.close (s : DriverState) (env : LockEnv) :
    Except Err Unit × DriverState × List Cmd :=
  if s.session_config_lock then
    match PANOSLock.unlock s.locked env with
    | (.error e, newLocked, trace) => (.error e, { s with locked := newLocked }, trace)
    | (.ok _, newLocked, trace) =>
        (.ok (), { s with locked := newLocked, ssh_connection := false }, trace)
  else
    (.ok (), { s with ssh_connection := false }, [])

/-- Outcome of the `device.op` save call of `PANOSDriver._save_backup`:
the current date string (`str(datetime.now().date())`), whether the call
raises `PanXapiError`, and the `device.status` it reports otherwise. -/
structure SaveBackupEnv where
  date : String
  opRaises : Bool
  opErrMsg : String
  status : String

/-- The backup filename `_save_backup` derives from the date:
`"config_" ++ date ++ ".xml"` with spaces replaced by underscores
(Python `str.replace(" ", "_")`, a character-wise substitution since the
pattern is a single character). -/
def backupName (date : String) : String :=
  "config_" ++ String.mk (date.data.map fun c => if c = ' ' then '_' else c) ++ ".xml"

/-- Model of `PANOSDriver._save_backup`: assign `self.backup_file` from the date
(this happens before the device call, so the attribute is set even when
the save then fails), issue the save command, and report whether
`device.status` is `"success"`.  Returns (result, assigned backup file
name, trace). -/
def PANOSDriver.save_backup (env : SaveBackupEnv) :
    Except Err Bool × String × List Cmd :=
  let backup_file := backupName env.date
  if env.opRaises then
    (.error (.panXapiError env.opErrMsg), backup_file, [.xmlSave backup_file])
  else if env.status = "success" then
    (.ok true, backup_file, [.xmlSave backup_file])
  else
    (.ok false, backup_file, [.xmlSave backup_file])

/-- Model of `os.path.basename` for the POSIX paths the driver handles: the suffix
after the last `/` separator. -/
def basename (p : String) : String :=
  String.mk (p.data.foldl (fun acc c => if c = '/' then [] else acc ++ [c]) [])

/-- Outcome of the multipart upload of `PANOSDriver._import_file`: whether
the HTTP layer raises (`raise_for_status`), and the status attribute of
the XML response body otherwise. -/
structure ImportFileEnv where
  httpRaises : Bool
  httpErrMsg : String
  responseStatus : String

/-- Model of `PANOSDriver._import_file`: upload the local file to the device's
configuration import area.  `ok none` models the Python `False` return
(response status `"error"`); `ok (some path)` returns the basename under
which the device stored the file. -/
def PANOSDriver.import_file (filename : String) (env : ImportFileEnv) :
    Except Err (Option String) × List Cmd :=
  let path := basename filename
  if env.httpRaises then
    (.error (.httpError env.httpErrMsg), [.upload path])
  else if env.responseStatus = "error" then
    (.ok none, [.upload path])
  else
    (.ok (some path), [.upload path])

/-- Environment for one `load_replace_candidate` call: the `_save_backup`
outcome (used only when `loaded` is false), the `_import_file` outcome,
and the outcome of the final `device.op` load command. -/
structure ReplaceEnv where
  backup : SaveBackupEnv
  importEnv : ImportFileEnv
  loadOpRaises : Bool
  loadOpErrMsg : String
  loadStatus : String

/-- Model of `PANOSDriver.load_replace_candidate`.  Faithful to the source,
including its defect: on `device.status ≠ "success"` after the load
command the source evaluates
`ReplaceConfigException("Error while loading config from {0}").format(path)`,
i.e. calls `.format` on the exception object itself, so Python raises
`AttributeError` there instead of the intended `ReplaceConfigException`. -/
def PANOSDriver.load_replace_candidate (s : DriverState)
    (filename : Option String) (config : Option (List String))
    (env : ReplaceEnv) : Except Err Unit × DriverState × List Cmd :=
  if config.isSome then
    (.error (.replaceConfigException "This method requires a config file."), s, [])
  else
    match filename with
    | none =>
        (.error (.replaceConfigException "This method requires a config file."), s, [])
    | some fname =>
      match
        (if s.loaded = false then
          match PANOSDriver.save_backup env.backup with
          | (.error e, bf, tr) =>
              (Except.error e, { s with backup_file := some bf }, tr)
          | (.ok true, bf, tr) =>
              (Except.ok (), { s with backup_file := some bf }, tr)
          | (.ok false, bf, tr) =>
              (Except.error (.replaceConfigException "Error while storing backup config"),
               { s with backup_file := some bf }, tr)
        else (Except.ok (), s, [])) with
      | (.error e, s1, tr1) => (.error e, s1, tr1)
      | (.ok _, s1, tr1) =>
        match PANOSDriver.import_file fname env.importEnv with
        | (.error e, tr2) => (.error e, s1, tr1 ++ tr2)
        | (.ok none, tr2) =>
            (.error (.replaceConfigException
                "Error while trying to move the config file to the device."),
             s1, tr1 ++ tr2)
        | (.ok (some path), tr2) =>
          if env.loadOpRaises then
            (.error (.panXapiError env.loadOpErrMsg), s1,
             tr1 ++ tr2 ++ [.xmlLoad path])
          else if env.loadStatus = "success" then
            (.ok (), { s1 with loaded := true }, tr1 ++ tr2 ++ [.xmlLoad path])
          else
            (.error (.attributeError
                "ReplaceConfigException object has no attribute format"),
             s1, tr1 ++ tr2 ++ [.xmlLoad path])

/-- Environment for one `_send_merge_commands` call: the `_save_backup`
outcome, the `_open_ssh` outcome (used only if the shell channel is not
yet open), and whether `send_config_set` raises. -/
structure MergeEnv where
  backup : SaveBackupEnv
  openSsh : OpenSshEnv
  sendRaises : Bool
  sendErrMsg : String

/-- Model of `PANOSDriver._send_merge_commands`: backup if this is the first stage
operation, open the shell channel if needed, push the set-format lines,
then set `loaded := true` and `merge_config := true`.  The `config`
argument is the list of configuration lines (the source's
`splitlines()` normalisation of strings is applied by the caller model). -/
def PANOSDriver.send_merge_commands (s : DriverState) (config : List String)
    (env : MergeEnv) : Except Err Unit × DriverState × List Cmd :=
  match
    (if s.loaded = false then
      match PANOSDriver.save_backup env.backup with
      | (.error e, bf, tr) =>
          (Except.error e, { s with backup_file := some bf }, tr)
      | (.ok true, bf, tr) =>
          (Except.ok (), { s with backup_file := some bf }, tr)
      | (.ok false, bf, tr) =>
          (Except.error (.mergeConfigException "Error while storing backup config."),
           { s with backup_file := some bf }, tr)
    else (Except.ok (), s, [])) with
  | (.error e, s1, tr1) => (.error e, s1, tr1)
  | (.ok _, s1, tr1) =>
    match
      (if s1.ssh_connection = false then PANOSDriver.open_ssh s1 env.openSsh
       else (Except.ok (), s1, [])) with
    | (.error e, s2, tr2) => (.error e, s2, tr1 ++ tr2)
    | (.ok _, s2, tr2) =>
      if env.sendRaises then
        (.error (.netmikoError env.sendErrMsg), s2,
         tr1 ++ tr2 ++ [.sshConfigSet config])
      else
        (.ok (), { s2 with loaded := true, merge_config := true },
         tr1 ++ tr2 ++ [.sshConfigSet config])

/-- Environment for one `load_merge_candidate` call: whether opening the
local file raises `IOError` (only used on the filename path), the lines of
that file, and the `_send_merge_commands` environment. -/
structure LoadMergeEnv where
  readRaises : Bool
  fileLines : List String
  merge : MergeEnv

/-- Model of `PANOSDriver.load_merge_candidate`: with a filename, read it
(`_get_file_content` wraps `IOError` into `MergeConfigException`) and send
its lines; with inline config, send those lines; with neither, raise. -/
def PANOSDriver.load_merge_candidate (s : DriverState)
    (filename : Option String) (config : Option (List String))
    (env : LoadMergeEnv) : Except Err Unit × DriverState × List Cmd :=
  match filename with
  | some fname =>
      if env.readRaises then
        (.error (.mergeConfigException ("Error while opening " ++ fname
            ++ ". Make sure filename is correct.")), s, [])
      else
        PANOSDriver.send_merge_commands s env.fileLines env.merge
  | none =>
    match config with
    | some cfg => PANOSDriver.send_merge_commands s cfg env.merge
    | none =>
        (.error (.mergeConfigException
            "You must provide either a file or a set-format string"), s, [])

/-- Environment for one `commit_config` call: the `_open_ssh` outcome
(used only if the shell channel is not yet open), whether the netmiko
`commit` raises, and the lock environment for the re-acquisition performed
when session locking is enabled. -/
structure CommitEnv where
  openSsh : OpenSshEnv
  commitRaises : Bool
  commitErrMsg : String
  relock : LockEnv

/-- Model of `PANOSDriver.commit_config`: requires `loaded`; commits over the shell
channel; on success sets `loaded := false, changed := true`; a commit
failure is wrapped into `MergeConfigException` or
`ReplaceConfigException` according to `merge_config`.  Afterwards, when
session locking is enabled, the source sets `self._lock_object.locked =
False` and calls `lock()` again (the device auto-released both locks on
commit); an error out of that re-lock propagates to the caller. -/
def PANOSDriver.commit_config (s : DriverState) (message : String)
    (env : CommitEnv) : Except Err Unit × DriverState × List Cmd :=
  if s.loaded then
    match
      (if s.ssh_connection = false then PANOSDriver.open_ssh s env.openSsh
       else (Except.ok (), s, [])) with
    | (.error e, s1, tr1) => (.error e, s1, tr1)
    | (.ok _, s1, tr1) =>
      if env.commitRaises then
        if s1.merge_config then
          (.error (.mergeConfigException "Error while commiting config"), s1,
           tr1 ++ [.sshCommit message])
        else
          (.error (.replaceConfigException "Error while commiting config"), s1,
           tr1 ++ [.sshCommit message])
      else
        if s1.session_config_lock then
          match PANOSLock.lock false s1.lock_comment env.relock with
          | (r, newLocked, tr2) =>
              (r, { s1 with loaded := false, changed := true, locked := newLocked },
               tr1 ++ [.sshCommit message] ++ tr2)
        else
          (.ok (), { s1 with loaded := false, changed := true },
           tr1 ++ [.sshCommit message])
  else
    (.error (.replaceConfigException "No config loaded."), s, [])

/-- Outcome of the `device.op` call of `discard_config`. -/
structure DiscardEnv where
  opRaises : Bool
  opErrMsg : String
  status : String

/-- Model of `PANOSDriver.discard_config`: a no-op unless `loaded`; reload the
backup file over the candidate; on reported success set `loaded := false,
merge_config := false`, otherwise raise `ReplaceConfigException`.
Reading `self.backup_file` before `_save_backup` ever assigned it would be
a Python `AttributeError`. -/
def PANOSDriver.discard_config (s : DriverState) (env : DiscardEnv) :
    Except Err Unit × DriverState × List Cmd :=
  if s.loaded then
    match s.backup_file with
    | none =>
        (.error (.attributeError "PANOSDriver object has no attribute backup_file"),
         s, [])
    | some bf =>
      if env.opRaises then
        (.error (.panXapiError env.opErrMsg), s, [.xmlLoad bf])
      else if env.status = "success" then
        (.ok (), { s with loaded := false, merge_config := false }, [.xmlLoad bf])
      else
        (.error (.replaceConfigException "Error while loading backup config."),
         s, [.xmlLoad bf])
  else
    (.ok (), s, [])

/-- Environment for one `rollback` call: the outcome of the `device.op`
load of the backup, the `_open_ssh` outcome, and whether the final shell
`commit` raises. -/
structure RollbackEnv where
  opRaises : Bool
  opErrMsg : String
  openSsh : OpenSshEnv
  commitRaises : Bool

/-- Model of `PANOSDriver.rollback`: a no-op unless `changed`; reload the backup
into the candidate, then commit it over the shell channel.  On commit
success the flags are cleared.  When the shell commit raises, the source's
except-branch merely constructs `ReplaceConfigException(...)` without
raising it, so the failure is swallowed: the method returns normally and
no flag is touched. -/
def PANOSDriver.rollback (s : DriverState) (env : RollbackEnv) :
    Except Err Unit × DriverState × List Cmd :=
  if s.changed then
    match s.backup_file with
    | none =>
        (.error (.attributeError "PANOSDriver object has no attribute backup_file"),
         s, [])
    | some bf =>
      if env.opRaises then
        (.error (.panXapiError env.opErrMsg), s, [.xmlLoad bf])
      else
        match
          (if s.ssh_connection = false then PANOSDriver.open_ssh s env.openSsh
           else (Except.ok (), s, [])) with
        | (.error e, s1, tr1) => (.error e, s1, [Cmd.xmlLoad bf] ++ tr1)
        | (.ok _, s1, tr1) =>
          if env.commitRaises then
            (.ok (), s1, [Cmd.xmlLoad bf] ++ tr1 ++ [.sshCommit ""])
          else
            (.ok (), { s1 with loaded := false, changed := false, merge_config := false },
             [Cmd.xmlLoad bf] ++ tr1 ++ [.sshCommit ""])
  else
    (.ok (), s, [])

/-- Environment for one `compare_config` call. -/
structure CompareEnv where
  openSsh : OpenSshEnv
  diff : String

/-- Model of `PANOSDriver.compare_config`: open the shell channel if needed, leave
configuration mode, run `show config diff`, and return the stripped
output. -/
def PANOSDriver.compare_config (s : DriverState) (env : CompareEnv) :
    Except Err String × DriverState × List Cmd :=
  match
    (if s.ssh_connection = false then PANOSDriver.open_ssh s env.openSsh
     else (Except.ok (), s, [])) with
  | (.error e, s1, tr1) => (.error e, s1, tr1)
  | (.ok _, s1, tr1) =>
      (.ok env.diff.trim, s1, tr1 ++ [.sshExitConfigMode, .sshSend "show config diff"])

/-- Environment for one `get_config` call: the texts and `device.op`
outcomes of `_get_running` / `_get_candidate`. -/
structure GetConfigEnv where
  runningRaises : Bool
  candidateRaises : Bool
  opErrMsg : String
  running : String
  candidate : String

/-- The dictionary `get_config` returns: it always has exactly the keys
`running`, `candidate` and `startup`. -/
structure Configs where
  running : String
  candidate : String
  startup : String
  deriving Repr, DecidableEq

/-- Model of `PANOSDriver.get_config`: `full` and `sanitized` are not implemented;
`retrieve` selects which of `_get_running` / `_get_candidate` run; the
`startup` entry is never fetched and stays `""`; any unrecognised
`retrieve` value (including `"startup"`) issues no device command. -/
def PANOSDriver.get_config (s : DriverState) (retrieve : String)
    (full : Bool) (sanitized : Bool) (env : GetConfigEnv) :
    Except Err Configs × DriverState × List Cmd :=
  if full then
    (.error (.notImplementedError "Full config is not implemented for this platform"),
     s, [])
  else if sanitized then
    (.error (.notImplementedError "Sanitized is not implemented for this platform"),
     s, [])
  else if retrieve = "all" then
    if env.runningRaises then
      (.error (.panXapiError env.opErrMsg), s, [.xmlShowRunning])
    else if env.candidateRaises then
      (.error (.panXapiError env.opErrMsg), s, [.xmlShowRunning, .xmlShowCandidate])
    else
      (.ok { running := env.running, candidate := env.candidate, startup := "" },
       s, [.xmlShowRunning, .xmlShowCandidate])
  else if retrieve = "running" then
    if env.runningRaises then
      (.error (.panXapiError env.opErrMsg), s, [.xmlShowRunning])
    else
      (.ok { running := env.running, candidate := "", startup := "" },
       s, [.xmlShowRunning])
  else if retrieve = "candidate" then
    if env.candidateRaises then
      (.error (.panXapiError env.opErrMsg), s, [.xmlShowCandidate])
    else
      (.ok { running := "", candidate := env.candidate, startup := "" },
       s, [.xmlShowCandidate])
  else
    (.ok { running := "", candidate := "", startup := "" }, s, [])

/-- One public operation on an open session, bundled with the outcomes of
the external calls it makes.  This is the alphabet over which sequences of
public operations are considered. -/
inductive Op where
  | openS (env : LockEnv)
  | closeS (env : LockEnv)
  | loadReplace (filename : Option String) (config : Option (List String)) (env : ReplaceEnv)
  | loadMerge (filename : Option String) (config : Option (List String)) (env : LoadMergeEnv)
  | commit (message : String) (env : CommitEnv)
  | discard (env : DiscardEnv)
  | rollbackOp (env : RollbackEnv)
  | compare (env : CompareEnv)
  | getConf (retrieve : String) (full : Bool) (sanitized : Bool) (env : GetConfigEnv)

/-- Run one public operation: dispatch to the corresponding driver method,
forgetting result values of value-returning reads. -/
def step (s : DriverState) : Op → Except Err Unit × DriverState × List Cmd
  | .openS e => PANOSDriver.openSession s e
  | .closeS e => PANOSDriver.close s e
  | .loadReplace f c e => PANOSDriver.load_replace_candidate s f c e
  | .loadMerge f c e => PANOSDriver.load_merge_candidate s f c e
  | .commit m e => PANOSDriver.commit_config s m e
  | .discard e => PANOSDriver.discard_config s e
  | .rollbackOp e => PANOSDriver.rollback s e
  | .compare e =>
      ((PANOSDriver.compare_config s e).1.map (fun _ => ()),
       (PANOSDriver.compare_config s e).2.1, (PANOSDriver.compare_config s e).2.2)
  | .getConf ret f sa e =>
      ((PANOSDriver.get_config s ret f sa e).1.map (fun _ => ()),
       (PANOSDriver.get_config s ret f sa e).2.1,
       (PANOSDriver.get_config s ret f sa e).2.2)

/-- Did the operation return normally (no Python exception)? -/
def okE : Except Err Unit → Bool
  | .ok _ => true
  | .error _ => false

/-- Did the operation raise a `LockError`? -/
def isLockErr : Except Err Unit → Bool
  | .error (.lockError _) => true
  | _ => false

/-- Is this a stage operation (`load_replace_candidate` or
`load_merge_candidate`)? -/
def isStageOp : Op → Bool
  | .loadReplace _ _ _ => true
  | .loadMerge _ _ _ => true
  | _ => false

/-- Is this a `commit_config` operation? -/
def isCommitOp : Op → Bool
  | .commit _ _ => true
  | _ => false

/-- Is this a `discard_config` operation? -/
def isDiscardOp : Op → Bool
  | .discard _ => true
  | _ => false

/-- Is this a `rollback` operation? -/
def isRollbackOp : Op → Bool
  | .rollbackOp _ => true
  | _ => false

/-- Is this command the device-side backup save of `_save_backup`? -/
def isSaveCmd : Cmd → Bool
  | .xmlSave _ => true
  | _ => false

/-- The two take-lock commands `PANOSLock.lock` issues, in source order. -/
def lockSeq (comment : String) : List Cmd :=
  [.xmlTakeLock "config" comment, .xmlTakeLock "commit" comment]

/-- A lock environment in which every device call succeeds. -/
def lockEnvAllOk : LockEnv := { opRaises := fun _ => false, errMsg := fun _ => "" }

/-- A lock environment in which the `commit`-lock call raises and the
`config`-lock call succeeds. -/
def lockEnvCommitFails : LockEnv :=
  { opRaises := fun t => t == "commit", errMsg := fun _ => "lock held by admin" }

/-- C6: `lock()` takes the `config` lock first and the `commit` lock
second; a failure on either device call raises `LockError` naming the
failing lock kind immediately, leaves `locked` false, and issues no
release command (the trace holds only take-lock commands) — in particular
a `commit`-lock failure after a successful `config`-lock leaves `locked`
false with no automatic unlock. -/
theorem lock_failure_behavior (comment : String) (e : LockEnv) :
    (e.opRaises "config" = true →
      PANOSLock.lock false comment e =
        (.error (.lockError ("Failed to aquire config-lock: " ++ e.errMsg "config")),
         false, [.xmlTakeLock "config" comment]))
  ∧ (e.opRaises "config" = false → e.opRaises "commit" = true →
      PANOSLock.lock false comment e =
        (.error (.lockError ("Failed to aquire commit-lock: " ++ e.errMsg "commit")),
         false, lockSeq comment))
  ∧ (e.opRaises "config" = false → e.opRaises "commit" = false →
      PANOSLock.lock false comment e = (.ok (), true, lockSeq comment)) := by
  refine ⟨fun h1 => ?_, fun h1 h2 => ?_, fun h1 h2 => ?_⟩ <;>
    simp [PANOSLock.lock, PANOSLock.lockLoop, LOCK_TYPES, lockSeq, h1]
  · simp [h2]
  · simp [h2]

/-- C6 witness: the commit-lock-fails-after-config-lock scenario at
concrete inputs. -/
theorem lock_failure_behavior_witness :
    PANOSLock.lock false "NAPALM-managed-lock" lockEnvCommitFails =
      (.error (.lockError "Failed to aquire commit-lock: lock held by admin"),
       false, lockSeq "NAPALM-managed-lock") :=
  (lock_failure_behavior "NAPALM-managed-lock" lockEnvCommitFails).2.1
    (by decide) (by decide)

/-- C7: `lock()` with the `locked` flag already true sends no device
commands and returns normally; `unlock()` with `locked` false sends none;
and after a successful `lock()` a second `lock()` adds nothing, so two
consecutive calls issue the two lock commands exactly once. -/
theorem lock_unlock_idempotent (comment : String) (e1 e2 : LockEnv) :
    PANOSLock.lock true comment e1 = (.ok (), true, [])
  ∧ PANOSLock.unlock false e1 = (.ok (), false, [])
  ∧ (e1.opRaises "config" = false → e1.opRaises "commit" = false →
      (PANOSLock.lock false comment e1).2.2 ++
        (PANOSLock.lock (PANOSLock.lock false comment e1).2.1 comment e2).2.2 =
        lockSeq comment) := by
  refine ⟨rfl, rfl, fun h1 h2 => ?_⟩
  simp [PANOSLock.lock, PANOSLock.lockLoop, LOCK_TYPES, lockSeq, h1, h2]

/-- C7 witness: two consecutive `lock()` calls with every device call
succeeding issue the two lock commands once. -/
theorem lock_unlock_idempotent_witness :
    (PANOSLock.lock false "NAPALM-managed-lock" lockEnvAllOk).2.2 ++
      (PANOSLock.lock (PANOSLock.lock false "NAPALM-managed-lock" lockEnvAllOk).2.1
        "NAPALM-managed-lock" lockEnvAllOk).2.2 =
      lockSeq "NAPALM-managed-lock" :=
  (lock_unlock_idempotent "NAPALM-managed-lock" lockEnvAllOk lockEnvAllOk).2.2
    (by decide) (by decide)

/-- C9: `rollback` issues no device command when `changed` is false; and
when the backup reload succeeded but the final shell commit fails, the
failure is swallowed — `rollback` returns normally and the state
(including `loaded`, `changed`, `merge_config`) is completely
unchanged. -/
theorem rollback_swallows_commit_failure (s : DriverState) (e : RollbackEnv)
    (bf : String) :
    (s.changed = false → PANOSDriver.rollback s e = (.ok (), s, []))
  ∧ (s.changed = true → s.backup_file = some bf → s.ssh_connection = true →
      e.opRaises = false → e.commitRaises = true →
      PANOSDriver.rollback s e = (.ok (), s, [.xmlLoad bf, .sshCommit ""])) := by
  constructor
  · intro h
    simp [PANOSDriver.rollback, h]
  · intro h1 h2 h3 h4 h5
    simp [PANOSDriver.rollback, h1, h2, h3, h4, h5]

/-- A post-commit driver state (`changed` true, backup present, shell
channel open) used to instantiate rollback scenarios. -/
def committedState : DriverState :=
  { loaded := false
    changed := true
    merge_config := false
    ssh_connection := true
    session_config_lock := false
    locked := false
    backup_file := some "config_2024-01-15.xml"
    lock_comment := "NAPALM-managed-lock" }

/-- C9 witness: concrete rollback whose shell commit fails — result ok,
state unchanged, exactly the reload and commit were attempted. -/
theorem rollback_swallows_commit_failure_witness :
    PANOSDriver.rollback committedState
      { opRaises := false, opErrMsg := "", openSsh := { raises := false, errMsg := "" },
        commitRaises := true } =
      (.ok (), committedState, [.xmlLoad "config_2024-01-15.xml", .sshCommit ""]) :=
  (rollback_swallows_commit_failure committedState
      { opRaises := false, opErrMsg := "", openSsh := { raises := false, errMsg := "" },
        commitRaises := true } "config_2024-01-15.xml").2
    rfl rfl rfl rfl rfl

/-- C10: `get_config` (with the default `full`/`sanitized`) always returns
the three-key record with `startup = ""`, for every `retrieve` value; and
for `retrieve = "startup"` all three values are empty and no device
command is issued. -/
theorem get_config_startup_empty (s : DriverState) (retrieve : String)
    (e : GetConfigEnv) :
    (∀ cfg s1 tr,
        PANOSDriver.get_config s retrieve false false e = (.ok cfg, s1, tr) →
        cfg.startup = "")
  ∧ PANOSDriver.get_config s "startup" false false e =
      (.ok { running := "", candidate := "", startup := "" }, s, []) := by
  constructor
  · intro cfg s1 tr h
    simp only [PANOSDriver.get_config, Bool.false_eq_true, if_false] at h
    repeat' split at h
    all_goals
      first
      | (simp only [Prod.mk.injEq, Except.ok.injEq] at h
         obtain ⟨hc, -, -⟩ := h
         subst hc
         rfl)
      | simp at h
  · simp [PANOSDriver.get_config]

/-- C10 witness: `retrieve = "running"` with a successful device call
yields `startup = ""`. -/
theorem get_config_startup_empty_witness :
    Configs.startup { running := "<cfg/>", candidate := "", startup := "" } = "" :=
  (get_config_startup_empty (PANOSDriver.init false "NAPALM-managed-lock") "running"
      { runningRaises := false, candidateRaises := false, opErrMsg := ""
        running := "<cfg/>", candidate := "" }).1
    { running := "<cfg/>", candidate := "", startup := "" }
    (PANOSDriver.init false "NAPALM-managed-lock") [.xmlShowRunning] (by decide)

/-- The environment of the C8 failing input: backup save and file upload
succeed, but the device reports a status other than `"success"` for the
load-into-candidate command. -/
def replaceEnvLoadStatusError : ReplaceEnv :=
  { backup := { date := "2024-01-15", opRaises := false, opErrMsg := "", status := "success" }
    importEnv := { httpRaises := false, httpErrMsg := "", responseStatus := "success" }
    loadOpRaises := false
    loadOpErrMsg := ""
    loadStatus := "error" }

/-- C8 (code bug): on the load-status-error path `load_replace_candidate`
does not raise `ReplaceConfigException` — the source calls `.format(path)`
on the exception object instead of on its message string, so Python raises
`AttributeError` there.  `loaded` does remain false.  (The other three
failure paths of the claim do raise `ReplaceConfigException`.) -/
theorem load_replace_status_error_attribute_error :
    PANOSDriver.load_replace_candidate (PANOSDriver.init false "NAPALM-managed-lock")
      (some "candidate.xml") none replaceEnvLoadStatusError =
      (.error (.attributeError "ReplaceConfigException object has no attribute format"),
       { PANOSDriver.init false "NAPALM-managed-lock" with
           backup_file := some "config_2024-01-15.xml" },
       [.xmlSave "config_2024-01-15.xml", .upload "candidate.xml",
        .xmlLoad "candidate.xml"]) := by
  decide

/-- C3: with `loaded` false, a backup save reporting failure makes both
stage operations raise their stage-specific exception with the device
trace consisting of the save attempt alone — no file upload, no load
command, no shell command — and the post-state differs from `s` only in
the (already assigned) `backup_file` name, so `loaded` is still false. -/
theorem backup_failure_fail_closed (s : DriverState) (f : String)
    (lines : List String) (re : ReplaceEnv) (me : LoadMergeEnv)
    (hl : s.loaded = false)
    (hr1 : re.backup.opRaises = false) (hr2 : ¬ re.backup.status = "success")
    (hm1 : me.merge.backup.opRaises = false)
    (hm2 : ¬ me.merge.backup.status = "success") :
    PANOSDriver.load_replace_candidate s (some f) none re =
      (.error (.replaceConfigException "Error while storing backup config"),
       { s with backup_file := some (backupName re.backup.date) },
       [.xmlSave (backupName re.backup.date)])
  ∧ PANOSDriver.load_merge_candidate s none (some lines) me =
      (.error (.mergeConfigException "Error while storing backup config."),
       { s with backup_file := some (backupName me.merge.backup.date) },
       [.xmlSave (backupName me.merge.backup.date)]) := by
  constructor
  · simp [PANOSDriver.load_replace_candidate, PANOSDriver.save_backup, hl, hr1, hr2]
  · simp [PANOSDriver.load_merge_candidate, PANOSDriver.send_merge_commands,
      PANOSDriver.save_backup, hl, hm1, hm2]

/-- A replace environment whose backup save reports status `"error"`. -/
def backupFailReplaceEnv : ReplaceEnv :=
  { backup := { date := "2024-01-15", opRaises := false, opErrMsg := "", status := "error" }
    importEnv := { httpRaises := false, httpErrMsg := "", responseStatus := "success" }
    loadOpRaises := false
    loadOpErrMsg := ""
    loadStatus := "success" }

/-- A merge environment whose backup save reports status `"error"`. -/
def backupFailMergeEnv : LoadMergeEnv :=
  { readRaises := false
    fileLines := []
    merge :=
      { backup := { date := "2024-01-15", opRaises := false, opErrMsg := "", status := "error" }
        openSsh := { raises := false, errMsg := "" }
        sendRaises := false
        sendErrMsg := "" } }

/-- C3 witness: concrete fresh sessions in which the backup save fails:
both stage operations abort with only the save attempt on the wire. -/
theorem backup_failure_fail_closed_witness :
    PANOSDriver.load_replace_candidate (PANOSDriver.init false "NAPALM-managed-lock")
      (some "candidate.xml") none backupFailReplaceEnv =
      (.error (.replaceConfigException "Error while storing backup config"),
       { PANOSDriver.init false "NAPALM-managed-lock" with
           backup_file := some (backupName "2024-01-15") },
       [.xmlSave (backupName "2024-01-15")])
  ∧ PANOSDriver.load_merge_candidate (PANOSDriver.init false "NAPALM-managed-lock")
      none (some ["set a b"]) backupFailMergeEnv =
      (.error (.mergeConfigException "Error while storing backup config."),
       { PANOSDriver.init false "NAPALM-managed-lock" with
           backup_file := some (backupName "2024-01-15") },
       [.xmlSave (backupName "2024-01-15")]) :=
  backup_failure_fail_closed (PANOSDriver.init false "NAPALM-managed-lock")
    "candidate.xml" ["set a b"] backupFailReplaceEnv backupFailMergeEnv
    rfl rfl (by decide) rfl (by decide)

/-- C2: with a candidate loaded and the shell channel open, a failing
device commit raises `MergeConfigException` when `merge_config` is true
and `ReplaceConfigException` when it is false, leaving the whole state
(in particular `loaded`) unchanged; a successful device commit sets
`loaded := false` and `changed := true` (whatever the subsequent lock
re-acquisition does). -/
theorem commit_config_failure_and_success (s : DriverState) (m : String)
    (e : CommitEnv) (hl : s.loaded = true) (hssh : s.ssh_connection = true) :
    (e.commitRaises = true →
        PANOSDriver.commit_config s m e =
          ((if s.merge_config then
              .error (.mergeConfigException "Error while commiting config")
            else
              .error (.replaceConfigException "Error while commiting config")),
           s, [.sshCommit m]))
  ∧ (e.commitRaises = false →
        (PANOSDriver.commit_config s m e).2.1.loaded = false
      ∧ (PANOSDriver.commit_config s m e).2.1.changed = true) := by
  constructor
  · intro hc
    by_cases hm : s.merge_config = true <;>
      simp [PANOSDriver.commit_config, hl, hssh, hc, hm]
  · intro hc
    by_cases hsl : s.session_config_lock = true
    · rcases hx : PANOSLock.lock false s.lock_comment e.relock with ⟨r, nl, tr⟩
      simp [PANOSDriver.commit_config, hl, hssh, hc, hsl, hx]
    · simp [PANOSDriver.commit_config, hl, hssh, hc, hsl]

/-- A staged driver state: candidate loaded from a merge, shell open,
session locking disabled. -/
def stagedState : DriverState :=
  { loaded := true
    changed := false
    merge_config := true
    ssh_connection := true
    session_config_lock := false
    locked := false
    backup_file := some "config_2024-01-15.xml"
    lock_comment := "NAPALM-managed-lock" }

/-- C2 witness: a failing commit on a merge-staged state raises
`MergeConfigException` and leaves the state unchanged. -/
theorem commit_config_failure_and_success_witness :
    PANOSDriver.commit_config stagedState "msg"
      { openSsh := { raises := false, errMsg := "" }, commitRaises := true,
        commitErrMsg := "", relock := lockEnvAllOk } =
      ((if stagedState.merge_config then
          .error (.mergeConfigException "Error while commiting config")
        else
          .error (.replaceConfigException "Error while commiting config")),
       stagedState, [.sshCommit "msg"]) :=
  (commit_config_failure_and_success stagedState "msg"
      { openSsh := { raises := false, errMsg := "" }, commitRaises := true,
        commitErrMsg := "", relock := lockEnvAllOk } rfl rfl).1 rfl

/-- C4: with a candidate loaded and the shell channel open — when session
locking is enabled and `commit_config` returns success, the trace is the
commit followed by exactly the two take-lock commands and `locked` ends
true (`locked` was first reset to false, which is what allows `lock()` to
issue commands at all); when the device commit fails, the trace stops at
the commit and `locked` is untouched; when session locking is disabled the
trace never contains lock commands and `locked` is untouched. -/
theorem commit_relock_policy (s : DriverState) (m : String) (e : CommitEnv)
    (hl : s.loaded = true) (hssh : s.ssh_connection = true) :
    (s.session_config_lock = true → okE (PANOSDriver.commit_config s m e).1 = true →
        (PANOSDriver.commit_config s m e).2.2 = [.sshCommit m] ++ lockSeq s.lock_comment
      ∧ (PANOSDriver.commit_config s m e).2.1.locked = true)
  ∧ (e.commitRaises = true →
        (PANOSDriver.commit_config s m e).2.2 = [.sshCommit m]
      ∧ (PANOSDriver.commit_config s m e).2.1.locked = s.locked)
  ∧ (s.session_config_lock = false →
        (PANOSDriver.commit_config s m e).2.2 = [.sshCommit m]
      ∧ (PANOSDriver.commit_config s m e).2.1.locked = s.locked) := by
  refine ⟨fun hsl hok => ?_, fun hcr => ?_, fun hsl => ?_⟩
  · by_cases hcr : e.commitRaises = true
    · by_cases hm : s.merge_config = true <;>
        simp [PANOSDriver.commit_config, hl, hssh, hcr, hm, okE] at hok
    · by_cases h1 : e.relock.opRaises "config" = true
      · simp [PANOSDriver.commit_config, hl, hssh, hcr, hsl, PANOSLock.lock,
          PANOSLock.lockLoop, LOCK_TYPES, h1, okE] at hok
      · by_cases h2 : e.relock.opRaises "commit" = true
        · simp [PANOSDriver.commit_config, hl, hssh, hcr, hsl, PANOSLock.lock,
            PANOSLock.lockLoop, LOCK_TYPES, h1, h2, okE] at hok
        · simp [PANOSDriver.commit_config, hl, hssh, hcr, hsl, PANOSLock.lock,
            PANOSLock.lockLoop, LOCK_TYPES, lockSeq, h1, h2]
  · by_cases hm : s.merge_config = true <;>
      simp [PANOSDriver.commit_config, hl, hssh, hcr, hm]
  · by_cases hcr : e.commitRaises = true
    · by_cases hm : s.merge_config = true <;>
        simp [PANOSDriver.commit_config, hl, hssh, hcr, hm]
    · simp [PANOSDriver.commit_config, hl, hssh, hcr, hsl]

/-- A staged driver state with session locking enabled and the device
locks currently held. -/
def stagedLockedState : DriverState :=
  { loaded := true
    changed := false
    merge_config := true
    ssh_connection := true
    session_config_lock := true
    locked := true
    backup_file := some "config_2024-01-15.xml"
    lock_comment := "NAPALM-managed-lock" }

/-- C4 witness: a successful commit with session locking enabled issues
the commit and then exactly the two take-lock commands, ending locked. -/
theorem commit_relock_policy_witness :
    (PANOSDriver.commit_config stagedLockedState ""
        { openSsh := { raises := false, errMsg := "" }, commitRaises := false,
          commitErrMsg := "", relock := lockEnvAllOk }).2.2 =
      [.sshCommit ""] ++ lockSeq stagedLockedState.lock_comment
  ∧ (PANOSDriver.commit_config stagedLockedState ""
        { openSsh := { raises := false, errMsg := "" }, commitRaises := false,
          commitErrMsg := "", relock := lockEnvAllOk }).2.1.locked = true :=
  (commit_relock_policy stagedLockedState ""
      { openSsh := { raises := false, errMsg := "" }, commitRaises := false,
        commitErrMsg := "", relock := lockEnvAllOk } rfl rfl).1 rfl (by decide)

/-- C5: with `loaded` already true (a transaction in progress) neither
stage operation issues a save-backup command and `backup_file` keeps its
existing value; `discard_config` and `rollback` reload exactly that stored
`backup_file` name. -/
theorem backup_at_most_once (s : DriverState) (f : String) (lines : List String)
    (re : ReplaceEnv) (me : LoadMergeEnv) (de : DiscardEnv) (rbe : RollbackEnv)
    (bf : String) (hl : s.loaded = true) (hb : s.backup_file = some bf) :
    ((PANOSDriver.load_replace_candidate s (some f) none re).2.2.all
        (fun c => !isSaveCmd c) = true
      ∧ (PANOSDriver.load_replace_candidate s (some f) none re).2.1.backup_file
          = some bf)
  ∧ ((PANOSDriver.load_merge_candidate s none (some lines) me).2.2.all
        (fun c => !isSaveCmd c) = true
      ∧ (PANOSDriver.load_merge_candidate s none (some lines) me).2.1.backup_file
          = some bf)
  ∧ (de.opRaises = false → de.status = "success" →
      PANOSDriver.discard_config s de =
        (.ok (), { s with loaded := false, merge_config := false }, [.xmlLoad bf]))
  ∧ (s.changed = true → s.ssh_connection = true → rbe.opRaises = false →
      rbe.commitRaises = false →
      PANOSDriver.rollback s rbe =
        (.ok (), { s with loaded := false, changed := false, merge_config := false },
         [.xmlLoad bf, .sshCommit ""])) := by
  refine ⟨?_, ?_, fun h1 h2 => ?_, fun h1 h2 h3 h4 => ?_⟩
  · by_cases h1 : re.importEnv.httpRaises = true <;>
    by_cases h2 : re.importEnv.responseStatus = "error" <;>
    by_cases h3 : re.loadOpRaises = true <;>
    by_cases h4 : re.loadStatus = "success" <;>
      simp [PANOSDriver.load_replace_candidate, PANOSDriver.import_file, hl, hb,
        h1, h2, h3, h4, isSaveCmd]
  · by_cases h1 : s.ssh_connection = true <;>
    by_cases h2 : me.merge.openSsh.raises = true <;>
    by_cases h3 : me.merge.sendRaises = true <;>
      simp [PANOSDriver.load_merge_candidate, PANOSDriver.send_merge_commands,
        PANOSDriver.open_ssh, hl, hb, h1, h2, h3, isSaveCmd]
  · simp [PANOSDriver.discard_config, hl, hb, h1, h2]
  · simp [PANOSDriver.rollback, hl, hb, h1, h2, h3, h4]

/-- A staged driver state inside a second transaction step: candidate
loaded, a previous commit already made (`changed` true), backup present. -/
def stagedChangedState : DriverState :=
  { loaded := true
    changed := true
    merge_config := true
    ssh_connection := true
    session_config_lock := false
    locked := false
    backup_file := some "config_2024-01-15.xml"
    lock_comment := "NAPALM-managed-lock" }

/-- C5 witness: a repeated merge on a staged state sends no save command
and keeps the snapshot name, which a following rollback reloads. -/
theorem backup_at_most_once_witness :
    ((PANOSDriver.load_merge_candidate stagedChangedState none (some ["set a b"])
        backupFailMergeEnv).2.2.all (fun c => !isSaveCmd c) = true
      ∧ (PANOSDriver.load_merge_candidate stagedChangedState none (some ["set a b"])
          backupFailMergeEnv).2.1.backup_file = some "config_2024-01-15.xml")
  ∧ PANOSDriver.rollback stagedChangedState
      { opRaises := false, opErrMsg := "",
        openSsh := { raises := false, errMsg := "" }, commitRaises := false } =
      (.ok (), { stagedChangedState with
                   loaded := false, changed := false, merge_config := false },
       [.xmlLoad "config_2024-01-15.xml", .sshCommit ""]) :=
  ⟨(backup_at_most_once stagedChangedState "candidate.xml" ["set a b"]
      backupFailReplaceEnv backupFailMergeEnv
      { opRaises := false, opErrMsg := "", status := "success" }
      { opRaises := false, opErrMsg := "",
        openSsh := { raises := false, errMsg := "" }, commitRaises := false }
      "config_2024-01-15.xml" rfl rfl).2.1,
   (backup_at_most_once stagedChangedState "candidate.xml" ["set a b"]
      backupFailReplaceEnv backupFailMergeEnv
      { opRaises := false, opErrMsg := "", status := "success" }
      { opRaises := false, opErrMsg := "",
        openSsh := { raises := false, errMsg := "" }, commitRaises := false }
      "config_2024-01-15.xml" rfl rfl).2.2.2 rfl rfl rfl rfl⟩

/-- Operation `open` touches only the `locked` flag: `loaded` and `changed` are
preserved for every lock outcome. -/
lemma openS_flags (s : DriverState) (e : LockEnv) :
    (PANOSDriver.openSession s e).2.1.loaded = s.loaded
  ∧ (PANOSDriver.openSession s e).2.1.changed = s.changed := by
  by_cases h : s.session_config_lock = true
  · rcases hx : PANOSLock.lock s.locked s.lock_comment e with ⟨r, nl, tr⟩
    simp [PANOSDriver.openSession, h, hx]
  · simp [PANOSDriver.openSession, h]

/-- Operation `close` touches only `locked` and `ssh_connection`: `loaded` and
`changed` are preserved for every unlock outcome. -/
lemma closeS_flags (s : DriverState) (e : LockEnv) :
    (PANOSDriver.close s e).2.1.loaded = s.loaded
  ∧ (PANOSDriver.close s e).2.1.changed = s.changed := by
  by_cases h : s.session_config_lock = true
  · rcases hx : PANOSLock.unlock s.locked e with ⟨r, nl, tr⟩
    cases r <;> simp [PANOSDriver.close, h, hx]
  · simp [PANOSDriver.close, h]

/-- Operation `compare_config` touches only `ssh_connection`. -/
lemma compare_flags (s : DriverState) (e : CompareEnv) :
    (PANOSDriver.compare_config s e).2.1.loaded = s.loaded
  ∧ (PANOSDriver.compare_config s e).2.1.changed = s.changed := by
  by_cases h1 : s.ssh_connection = true <;>
  by_cases h2 : e.openSsh.raises = true <;>
    simp [PANOSDriver.compare_config, PANOSDriver.open_ssh, h1, h2]

/-- Operation `get_config` never changes the driver state. -/
lemma getConf_state (s : DriverState) (ret : String) (f sa : Bool)
    (e : GetConfigEnv) : (PANOSDriver.get_config s ret f sa e).2.1 = s := by
  simp only [PANOSDriver.get_config]
  repeat' split
  all_goals rfl

/-- Flag behaviour of `load_replace_candidate`: `changed` is always
preserved; on any raised exception `loaded` is preserved; and `loaded`
never goes from true to false. -/
lemma replace_flags (s : DriverState) (f : Option String)
    (c : Option (List String)) (e : ReplaceEnv) :
    (PANOSDriver.load_replace_candidate s f c e).2.1.changed = s.changed
  ∧ (okE (PANOSDriver.load_replace_candidate s f c e).1 = false →
      (PANOSDriver.load_replace_candidate s f c e).2.1.loaded = s.loaded)
  ∧ (s.loaded = true →
      (PANOSDriver.load_replace_candidate s f c e).2.1.loaded = true) := by
  cases c with
  | some cc => simp [PANOSDriver.load_replace_candidate, okE]
  | none =>
    cases f with
    | none => simp [PANOSDriver.load_replace_candidate, okE]
    | some fname =>
      by_cases h1 : s.loaded = false <;>
      by_cases h2 : e.backup.opRaises = true <;>
      by_cases h3 : e.backup.status = "success" <;>
      by_cases h4 : e.importEnv.httpRaises = true <;>
      by_cases h5 : e.importEnv.responseStatus = "error" <;>
      by_cases h6 : e.loadOpRaises = true <;>
      by_cases h7 : e.loadStatus = "success" <;>
        simp [PANOSDriver.load_replace_candidate, PANOSDriver.save_backup,
          PANOSDriver.import_file, okE, h1, h2, h3, h4, h5, h6, h7]

/-- Flag behaviour of `load_merge_candidate`: `changed` is always
preserved; on any raised exception `loaded` is preserved; and `loaded`
never goes from true to false. -/
lemma merge_flags (s : DriverState) (f : Option String)
    (c : Option (List String)) (e : LoadMergeEnv) :
    (PANOSDriver.load_merge_candidate s f c e).2.1.changed = s.changed
  ∧ (okE (PANOSDriver.load_merge_candidate s f c e).1 = false →
      (PANOSDriver.load_merge_candidate s f c e).2.1.loaded = s.loaded)
  ∧ (s.loaded = true →
      (PANOSDriver.load_merge_candidate s f c e).2.1.loaded = true) := by
  have core : ∀ cfg : List String,
      (PANOSDriver.send_merge_commands s cfg e.merge).2.1.changed = s.changed
    ∧ (okE (PANOSDriver.send_merge_commands s cfg e.merge).1 = false →
        (PANOSDriver.send_merge_commands s cfg e.merge).2.1.loaded = s.loaded)
    ∧ (s.loaded = true →
        (PANOSDriver.send_merge_commands s cfg e.merge).2.1.loaded = true) := by
    intro cfg
    by_cases h1 : s.loaded = false <;>
    by_cases h2 : e.merge.backup.opRaises = true <;>
    by_cases h3 : e.merge.backup.status = "success" <;>
    by_cases h4 : s.ssh_connection = true <;>
    by_cases h5 : e.merge.openSsh.raises = true <;>
    by_cases h6 : e.merge.sendRaises = true <;>
      simp [PANOSDriver.send_merge_commands, PANOSDriver.save_backup,
        PANOSDriver.open_ssh, okE, h1, h2, h3, h4, h5, h6]
  cases f with
  | some fname =>
      by_cases hr : e.readRaises = true
      · simp [PANOSDriver.load_merge_candidate, okE, hr]
      · simpa [PANOSDriver.load_merge_candidate, hr] using core e.fileLines
  | none =>
    cases c with
    | some cfg => simpa [PANOSDriver.load_merge_candidate] using core cfg
    | none => simp [PANOSDriver.load_merge_candidate, okE]

/-- Flag behaviour of `commit_config`: if the call raises anything other
than a `LockError`, both flags are preserved; if it raises a `LockError`
(the re-lock path) or returns normally, the device commit went through, so
`loaded` was true, and the state now has `loaded = false, changed =
true`. -/
lemma commit_flags (s : DriverState) (m : String) (e : CommitEnv) :
    (okE (PANOSDriver.commit_config s m e).1 = false →
      isLockErr (PANOSDriver.commit_config s m e).1 = false →
      (PANOSDriver.commit_config s m e).2.1.loaded = s.loaded
      ∧ (PANOSDriver.commit_config s m e).2.1.changed = s.changed)
  ∧ (isLockErr (PANOSDriver.commit_config s m e).1 = true →
      s.loaded = true
      ∧ (PANOSDriver.commit_config s m e).2.1.loaded = false
      ∧ (PANOSDriver.commit_config s m e).2.1.changed = true)
  ∧ (okE (PANOSDriver.commit_config s m e).1 = true →
      s.loaded = true
      ∧ (PANOSDriver.commit_config s m e).2.1.loaded = false
      ∧ (PANOSDriver.commit_config s m e).2.1.changed = true) := by
  by_cases h1 : s.loaded = true <;>
  by_cases h2 : s.ssh_connection = true <;>
  by_cases h3 : e.openSsh.raises = true <;>
  by_cases h4 : e.commitRaises = true <;>
  by_cases h5 : s.merge_config = true <;>
  by_cases h6 : s.session_config_lock = true <;>
  by_cases h7 : e.relock.opRaises "config" = true <;>
  by_cases h8 : e.relock.opRaises "commit" = true <;>
    simp [PANOSDriver.commit_config, PANOSDriver.open_ssh, PANOSLock.lock,
      PANOSLock.lockLoop, LOCK_TYPES, okE, isLockErr,
      h1, h2, h3, h4, h5, h6, h7, h8]

/-- Flag behaviour of `discard_config`: `changed` is always preserved; on
any raised exception the whole state is preserved; on normal return
`loaded` ends false (either it already was, or the discard reset it). -/
lemma discard_flags (s : DriverState) (e : DiscardEnv) :
    (PANOSDriver.discard_config s e).2.1.changed = s.changed
  ∧ (okE (PANOSDriver.discard_config s e).1 = false →
      (PANOSDriver.discard_config s e).2.1.loaded = s.loaded)
  ∧ (okE (PANOSDriver.discard_config s e).1 = true →
      (PANOSDriver.discard_config s e).2.1.loaded = false) := by
  by_cases h1 : s.loaded = true
  · cases hb : s.backup_file with
    | none => simp [PANOSDriver.discard_config, okE, h1, hb]
    | some bf =>
        by_cases h2 : e.opRaises = true <;>
        by_cases h3 : e.status = "success" <;>
          simp [PANOSDriver.discard_config, okE, h1, hb, h2, h3]
  · have h1' : s.loaded = false := by simpa using h1
    simp [PANOSDriver.discard_config, okE, h1', h1]

/-- Flag behaviour of `rollback`: on a raised exception both flags are
preserved; otherwise each flag is either preserved or the rollback
completed, returning normally with `loaded = false, changed = false`. -/
lemma rollback_flags (s : DriverState) (e : RollbackEnv) :
    (okE (PANOSDriver.rollback s e).1 = false →
      (PANOSDriver.rollback s e).2.1.loaded = s.loaded
      ∧ (PANOSDriver.rollback s e).2.1.changed = s.changed)
  ∧ ((PANOSDriver.rollback s e).2.1.changed = s.changed
      ∨ (okE (PANOSDriver.rollback s e).1 = true
         ∧ (PANOSDriver.rollback s e).2.1.changed = false
         ∧ (PANOSDriver.rollback s e).2.1.loaded = false))
  ∧ ((PANOSDriver.rollback s e).2.1.loaded = s.loaded
      ∨ (okE (PANOSDriver.rollback s e).1 = true
         ∧ (PANOSDriver.rollback s e).2.1.loaded = false
         ∧ (PANOSDriver.rollback s e).2.1.changed = false)) := by
  by_cases h1 : s.changed = true
  · cases hb : s.backup_file with
    | none => simp [PANOSDriver.rollback, okE, h1, hb]
    | some bf =>
        by_cases h2 : e.opRaises = true <;>
        by_cases h3 : s.ssh_connection = true <;>
        by_cases h4 : e.openSsh.raises = true <;>
        by_cases h5 : e.commitRaises = true <;>
          simp [PANOSDriver.rollback, PANOSDriver.open_ssh, okE,
            h1, hb, h2, h3, h4, h5]
  · simp [PANOSDriver.rollback, okE, h1]

/-- The five per-step transaction-flag clauses, for an operation result
`R` that preserves both flags (any lock/session/read operation). -/
lemma clauses_of_preserved (s : DriverState)
    (R : Except Err Unit × DriverState × List Cmd) (b1 b2 b3 b4 : Bool)
    (hl : R.2.1.loaded = s.loaded) (hc : R.2.1.changed = s.changed) :
    (okE R.1 = false →
      ((R.2.1.loaded = s.loaded ∧ R.2.1.changed = s.changed)
        ∨ (b1 = true ∧ isLockErr R.1 = true ∧ s.loaded = true
           ∧ R.2.1.loaded = false ∧ R.2.1.changed = true)))
  ∧ (R.2.1.loaded = true → s.loaded = false → b2 = true ∧ okE R.1 = true)
  ∧ (R.2.1.loaded = false → s.loaded = true →
      (okE R.1 = true ∧ (b1 = true ∨ b3 = true ∨ b4 = true))
        ∨ (b1 = true ∧ isLockErr R.1 = true))
  ∧ (R.2.1.changed = true → s.changed = false → b1 = true ∧ R.2.1.loaded = false)
  ∧ (R.2.1.changed = false → s.changed = true → b4 = true ∧ okE R.1 = true) := by
  refine ⟨fun _ => Or.inl ⟨hl, hc⟩, fun ha hb => ?_, fun ha hb => ?_,
    fun ha hb => ?_, fun ha hb => ?_⟩ <;> simp_all

/-- The five per-step transaction-flag clauses, for a stage operation
result `R`: `changed` preserved, `loaded` preserved on failure, `loaded`
monotone. -/
lemma clauses_of_stage (s : DriverState)
    (R : Except Err Unit × DriverState × List Cmd) (b1 b3 b4 : Bool)
    (hc : R.2.1.changed = s.changed)
    (hf : okE R.1 = false → R.2.1.loaded = s.loaded)
    (hm : s.loaded = true → R.2.1.loaded = true) :
    (okE R.1 = false →
      ((R.2.1.loaded = s.loaded ∧ R.2.1.changed = s.changed)
        ∨ (b1 = true ∧ isLockErr R.1 = true ∧ s.loaded = true
           ∧ R.2.1.loaded = false ∧ R.2.1.changed = true)))
  ∧ (R.2.1.loaded = true → s.loaded = false → true = true ∧ okE R.1 = true)
  ∧ (R.2.1.loaded = false → s.loaded = true →
      (okE R.1 = true ∧ (b1 = true ∨ b3 = true ∨ b4 = true))
        ∨ (b1 = true ∧ isLockErr R.1 = true))
  ∧ (R.2.1.changed = true → s.changed = false → b1 = true ∧ R.2.1.loaded = false)
  ∧ (R.2.1.changed = false → s.changed = true → b4 = true ∧ okE R.1 = true) := by
  refine ⟨fun hfail => Or.inl ⟨hf hfail, hc⟩, fun ha hb => ⟨rfl, ?_⟩,
    fun ha hb => ?_, fun ha hb => ?_, fun ha hb => ?_⟩
  · cases hok : okE R.1 with
    | false => rw [hf hok, hb] at ha; exact absurd ha (by simp)
    | true => rfl
  · rw [hm hb] at ha; exact absurd ha (by simp)
  · rw [hc, hb] at ha; exact absurd ha (by simp)
  · rw [hc, hb] at ha; exact absurd ha (by simp)

/-- The five transaction-flag clauses hold for every driver state and
every public operation. -/
lemma step_flag_clauses (s : DriverState) (op : Op) :
    (okE (step s op).1 = false →
      (((step s op).2.1.loaded = s.loaded ∧ (step s op).2.1.changed = s.changed)
        ∨ (isCommitOp op = true ∧ isLockErr (step s op).1 = true ∧ s.loaded = true
           ∧ (step s op).2.1.loaded = false ∧ (step s op).2.1.changed = true)))
  ∧ ((step s op).2.1.loaded = true → s.loaded = false →
      isStageOp op = true ∧ okE (step s op).1 = true)
  ∧ ((step s op).2.1.loaded = false → s.loaded = true →
      (okE (step s op).1 = true
        ∧ (isCommitOp op = true ∨ isDiscardOp op = true ∨ isRollbackOp op = true))
      ∨ (isCommitOp op = true ∧ isLockErr (step s op).1 = true))
  ∧ ((step s op).2.1.changed = true → s.changed = false →
      isCommitOp op = true ∧ (step s op).2.1.loaded = false)
  ∧ ((step s op).2.1.changed = false → s.changed = true →
      isRollbackOp op = true ∧ okE (step s op).1 = true) := by
  cases op with
  | openS e =>
      exact clauses_of_preserved s (PANOSDriver.openSession s e)
        false false false false (openS_flags s e).1 (openS_flags s e).2
  | closeS e =>
      exact clauses_of_preserved s (PANOSDriver.close s e)
        false false false false (closeS_flags s e).1 (closeS_flags s e).2
  | compare e =>
      exact clauses_of_preserved s
        ((PANOSDriver.compare_config s e).1.map (fun _ => ()),
         (PANOSDriver.compare_config s e).2.1, (PANOSDriver.compare_config s e).2.2)
        false false false false (compare_flags s e).1 (compare_flags s e).2
  | getConf ret f sa e =>
      exact clauses_of_preserved s
        ((PANOSDriver.get_config s ret f sa e).1.map (fun _ => ()),
         (PANOSDriver.get_config s ret f sa e).2.1,
         (PANOSDriver.get_config s ret f sa e).2.2)
        false false false false
        (congrArg DriverState.loaded (getConf_state s ret f sa e))
        (congrArg DriverState.changed (getConf_state s ret f sa e))
  | loadReplace f c e =>
      exact clauses_of_stage s (PANOSDriver.load_replace_candidate s f c e)
        false false false
        (replace_flags s f c e).1 (replace_flags s f c e).2.1 (replace_flags s f c e).2.2
  | loadMerge f c e =>
      exact clauses_of_stage s (PANOSDriver.load_merge_candidate s f c e)
        false false false
        (merge_flags s f c e).1 (merge_flags s f c e).2.1 (merge_flags s f c e).2.2
  | commit m e =>
      simp only [step]
      obtain ⟨hA, hB, hC⟩ := commit_flags s m e
      refine ⟨?_, ?_, ?_, ?_, ?_⟩
      · intro hfail
        cases hlk : isLockErr (PANOSDriver.commit_config s m e).1 with
        | false => exact Or.inl (hA hfail hlk)
        | true => exact Or.inr ⟨rfl, rfl, (hB hlk).1, (hB hlk).2.1, (hB hlk).2.2⟩
      · intro ha hb
        cases hok : okE (PANOSDriver.commit_config s m e).1 with
        | true => exact absurd (hC hok).1 (by simp [hb])
        | false =>
          cases hlk : isLockErr (PANOSDriver.commit_config s m e).1 with
          | true => rw [(hB hlk).2.1] at ha; exact absurd ha (by simp)
          | false => rw [(hA hok hlk).1, hb] at ha; exact absurd ha (by simp)
      · intro ha hb
        cases hok : okE (PANOSDriver.commit_config s m e).1 with
        | true => exact Or.inl ⟨rfl, Or.inl rfl⟩
        | false =>
          cases hlk : isLockErr (PANOSDriver.commit_config s m e).1 with
          | true => exact Or.inr ⟨rfl, rfl⟩
          | false => rw [(hA hok hlk).1, hb] at ha; exact absurd ha (by simp)
      · intro ha hb
        cases hok : okE (PANOSDriver.commit_config s m e).1 with
        | true => exact ⟨rfl, (hC hok).2.1⟩
        | false =>
          cases hlk : isLockErr (PANOSDriver.commit_config s m e).1 with
          | true => exact ⟨rfl, (hB hlk).2.1⟩
          | false => rw [(hA hok hlk).2, hb] at ha; exact absurd ha (by simp)
      · intro ha hb
        cases hok : okE (PANOSDriver.commit_config s m e).1 with
        | true => rw [(hC hok).2.2] at ha; exact absurd ha (by simp)
        | false =>
          cases hlk : isLockErr (PANOSDriver.commit_config s m e).1 with
          | true => rw [(hB hlk).2.2] at ha; exact absurd ha (by simp)
          | false => rw [(hA hok hlk).2, hb] at ha; exact absurd ha (by simp)
  | discard e =>
      simp only [step]
      obtain ⟨hc, hf, hok⟩ := discard_flags s e
      refine ⟨fun hfail => Or.inl ⟨hf hfail, hc⟩, ?_, ?_, ?_, ?_⟩
      · intro ha hb
        cases hk : okE (PANOSDriver.discard_config s e).1 with
        | true => rw [hok hk] at ha; exact absurd ha (by simp)
        | false => rw [hf hk, hb] at ha; exact absurd ha (by simp)
      · intro ha hb
        cases hk : okE (PANOSDriver.discard_config s e).1 with
        | true => exact Or.inl ⟨rfl, Or.inr (Or.inl rfl)⟩
        | false => rw [hf hk, hb] at ha; exact absurd ha (by simp)
      · intro ha hb
        rw [hc, hb] at ha; exact absurd ha (by simp)
      · intro ha hb
        rw [hc, hb] at ha; exact absurd ha (by simp)
  | rollbackOp e =>
      simp only [step]
      obtain ⟨h1, h2, h3⟩ := rollback_flags s e
      refine ⟨fun hfail => Or.inl (h1 hfail), ?_, ?_, ?_, ?_⟩
      · intro ha hb
        rcases h3 with hp | ⟨hok, hld, hch⟩
        · rw [hp, hb] at ha; exact absurd ha (by simp)
        · rw [hld] at ha; exact absurd ha (by simp)
      · intro ha hb
        rcases h3 with hp | ⟨hok, hld, hch⟩
        · rw [hp, hb] at ha; exact absurd ha (by simp)
        · exact Or.inl ⟨hok, Or.inr (Or.inr rfl)⟩
      · intro ha hb
        rcases h2 with hp | ⟨hok, hch, hld⟩
        · rw [hp, hb] at ha; exact absurd ha (by simp)
        · rw [hch] at ha; exact absurd ha (by simp)
      · intro ha hb
        rcases h2 with hp | ⟨hok, hch, hld⟩
        · rw [hp, hb] at ha; exact absurd ha (by simp)
        · exact ⟨rfl, hok⟩

/-- C1 (amended): `loaded` and `changed` are false after `__init__`; for
every state and public operation: `loaded` becomes true only via a
successful stage operation; `changed` leaves false only via a
`commit_config` whose device commit went through, and leaves true only via
a fully successful `rollback`; and an operation that raises leaves both
flags unchanged — with one exception forced by the code: a
`commit_config` whose device commit succeeds but whose subsequent lock
re-acquisition raises `LockError` fails with `loaded` already set to false
and `changed` already set to true, which also means `loaded` can return to
false via this failing `commit_config`. -/
theorem transaction_flag_state_machine (sl : Bool) (c : String)
    (s : DriverState) (op : Op) :
    ((PANOSDriver.init sl c).loaded = false ∧ (PANOSDriver.init sl c).changed = false)
  ∧ (okE (step s op).1 = false →
      (((step s op).2.1.loaded = s.loaded ∧ (step s op).2.1.changed = s.changed)
        ∨ (isCommitOp op = true ∧ isLockErr (step s op).1 = true ∧ s.loaded = true
           ∧ (step s op).2.1.loaded = false ∧ (step s op).2.1.changed = true)))
  ∧ ((step s op).2.1.loaded = true → s.loaded = false →
      isStageOp op = true ∧ okE (step s op).1 = true)
  ∧ ((step s op).2.1.loaded = false → s.loaded = true →
      (okE (step s op).1 = true
        ∧ (isCommitOp op = true ∨ isDiscardOp op = true ∨ isRollbackOp op = true))
      ∨ (isCommitOp op = true ∧ isLockErr (step s op).1 = true))
  ∧ ((step s op).2.1.changed = true → s.changed = false →
      isCommitOp op = true ∧ (step s op).2.1.loaded = false)
  ∧ ((step s op).2.1.changed = false → s.changed = true →
      isRollbackOp op = true ∧ okE (step s op).1 = true) :=
  ⟨⟨rfl, rfl⟩, step_flag_clauses s op⟩

/-- An all-success merge staging environment. -/
def mergeEnvAllOk : LoadMergeEnv :=
  { readRaises := false
    fileLines := []
    merge :=
      { backup := { date := "2024-01-15", opRaises := false, opErrMsg := "", status := "success" }
        openSsh := { raises := false, errMsg := "" }
        sendRaises := false
        sendErrMsg := "" } }

/-- A lock environment in which the `config`-lock call raises. -/
def lockEnvConfigFails : LockEnv :=
  { opRaises := fun t => t == "config", errMsg := fun _ => "config-lock held" }

/-- A commit environment whose device commit succeeds but whose lock
re-acquisition fails on the `config` lock. -/
def commitEnvRelockFails : CommitEnv :=
  { openSsh := { raises := false, errMsg := "" }
    commitRaises := false
    commitErrMsg := ""
    relock := lockEnvConfigFails }

/-- The state after opening a session with locking enabled (locks taken)
on a fresh driver. -/
def lockedOpenState : DriverState :=
  (step (PANOSDriver.init true "NAPALM-managed-lock") (.openS lockEnvAllOk)).2.1

/-- The state after a successful merge staging on `lockedOpenState`. -/
def stagedAfterMerge : DriverState :=
  (step lockedOpenState (.loadMerge none (some ["set a b"]) mergeEnvAllOk)).2.1

/-- C1 counterexample to the claim as stated: on a session reached by
`__init__` → `open` (locking enabled, locks acquired) → successful
`load_merge_candidate`, a `commit_config` whose device commit succeeds but
whose lock re-acquisition fails raises (`okE` false) *and* flips both
flags: `loaded` goes true → false and `changed` goes false → true, so a
failing operation does change the flags. -/
theorem transaction_flag_state_machine_counterexample :
    okE (step lockedOpenState (.loadMerge none (some ["set a b"]) mergeEnvAllOk)).1 = true
  ∧ stagedAfterMerge.loaded = true
  ∧ stagedAfterMerge.changed = false
  ∧ okE (step stagedAfterMerge (.commit "" commitEnvRelockFails)).1 = false
  ∧ isLockErr (step stagedAfterMerge (.commit "" commitEnvRelockFails)).1 = true
  ∧ (step stagedAfterMerge (.commit "" commitEnvRelockFails)).2.1.loaded = false
  ∧ (step stagedAfterMerge (.commit "" commitEnvRelockFails)).2.1.changed = true := by
  decide

/-- C1 witness: the amended state machine applied at a concrete state and
operation — a successful first merge staging is a stage operation that
returned normally. -/
theorem transaction_flag_state_machine_witness :
    isStageOp (Op.loadMerge none (some ["set a b"]) mergeEnvAllOk) = true
  ∧ okE (step (PANOSDriver.init false "NAPALM-managed-lock")
        (Op.loadMerge none (some ["set a b"]) mergeEnvAllOk)).1 = true :=
  (transaction_flag_state_machine false "NAPALM-managed-lock"
      (PANOSDriver.init false "NAPALM-managed-lock")
      (Op.loadMerge none (some ["set a b"]) mergeEnvAllOk)).2.2.1
    (by decide) (by decide)
